import Mathlib

/-!
Verification development for the audio-output-switcher repository.

Shallow embedding of the core components, translated from the Rust source:
  * `src/hotkey.rs`  — the hotkey grammar reader (`parse_hotkey`, `key_name_to_vk`);
  * `src/audio.rs`   — the default-endpoint switch service (`set_default_device`),
    instrumented with an environment describing the outcomes of the foreign calls;
  * `src/main.rs`    — the controller toggle logic (`toggle_device`,
    `is_current_speakers`, the CLI toggle target);
  * `src/tray.rs`    — the icon resource selector (`load_icon_from_ico`).

Strings are processed as `List Char`; every definition is executable and
decidable so concrete runs can be checked by `decide` or `rfl`.
-/

namespace AudioSwitcher

/-! ### Hotkey grammar reader (src/hotkey.rs) -/

/-- Errors of the hotkey grammar reader.  In the source these are formatted
`String` messages; the constructors carry exactly the data the source
interpolates into each message: the multiple-keys message interpolates only
the newly seen (already uppercased) token, the unknown-key message only the
offending (already uppercased) token, and the no-key message nothing. -/
inductive HotkeyError where
  | multipleKeys (got : String)
  | noKey
  | unknownKey (token : String)
deriving DecidableEq, Repr

/-- Splits a character list at every occurrence of the plus character,
mirroring the iterator produced by the Rust standard split on a pattern:
an empty input yields one empty part, adjacent separators yield empty parts. -/
def splitPlus : List Char → List (List Char)
  | [] => [[]]
  | c :: rest =>
    match splitPlus rest with
    | [] => [[c]]
    | g :: gs => if c = '+' then [] :: g :: gs else (c :: g) :: gs

/-- Leading and trailing whitespace removal, mirroring the Rust trim
(for the ASCII whitespace the claims exercise). -/
def trimChars (cs : List Char) : List Char :=
  ((cs.dropWhile fun c => c.isWhitespace).reverse.dropWhile fun c =>
      c.isWhitespace).reverse

/-- Uppercase mapping, mirroring the Rust uppercase conversion on the ASCII
range the grammar recognises. -/
def upperChars (cs : List Char) : List Char :=
  cs.map Char.toUpper

/-- Single-apostrophe token, written via its code point. -/
def apostropheTok : List Char :=
  [Char.ofNat 39]

/-- Single-backtick token, written via its code point. -/
def backtickTok : List Char :=
  [Char.ofNat 96]

/-- The name-to-virtual-key table of `key_name_to_vk` past the single
alphanumeric character fast path: the function keys F1–F12, SPACE and the
fixed punctuation set, each mapped to its Windows virtual-key code exactly
as listed in the source. -/
def keyTable (p : List Char) : Except HotkeyError Nat :=
  if p = "F1".data then .ok 0x70
  else if p = "F2".data then .ok 0x71
  else if p = "F3".data then .ok 0x72
  else if p = "F4".data then .ok 0x73
  else if p = "F5".data then .ok 0x74
  else if p = "F6".data then .ok 0x75
  else if p = "F7".data then .ok 0x76
  else if p = "F8".data then .ok 0x77
  else if p = "F9".data then .ok 0x78
  else if p = "F10".data then .ok 0x79
  else if p = "F11".data then .ok 0x7A
  else if p = "F12".data then .ok 0x7B
  else if p = "SPACE".data then .ok 0x20
  else if p = "\\".data then .ok 0xDC
  else if p = "/".data then .ok 0xBF
  else if p = ";".data then .ok 0xBA
  else if p = apostropheTok then .ok 0xDE
  else if p = "[".data then .ok 0xDB
  else if p = "]".data then .ok 0xDD
  else if p = "-".data then .ok 0xBD
  else if p = "=".data then .ok 0xBB
  else if p = ",".data then .ok 0xBC
  else if p = ".".data then .ok 0xBE
  else if p = backtickTok then .ok 0xC0
  else .error (.unknownKey (String.mk p))

/-- `key_name_to_vk` from src/hotkey.rs: a single ASCII letter maps to its
uppercased code point, a single ASCII digit to its code point, and every
other token goes through the fixed name table.  (The source measures the
single-character fast path in bytes; for tokens it can accept the two
measures agree, and both fall through to the table otherwise.) -/
def key_name_to_vk (p : List Char) : Except HotkeyError Nat :=
  match p with
  | [c] =>
    if c.isAlpha then .ok c.toUpper.toNat
    else if c.isDigit then .ok c.toNat
    else keyTable p
  | _ => keyTable p

/-- One iteration of the token loop of `parse_hotkey`: the running state is
the modifier bitmask and the virtual key accumulated so far (0 meaning, as
in the source, that no key token has been seen yet). Modifier bit values are
the Windows constants: ALT = 1, CONTROL = 2, SHIFT = 4, WIN = 8. -/
def parseStep (st : Nat × Nat) (part : List Char) : Except HotkeyError (Nat × Nat) :=
  let p := upperChars (trimChars part)
  if p = "CTRL".data ∨ p = "CONTROL".data then .ok (st.1 ||| 2, st.2)
  else if p = "ALT".data then .ok (st.1 ||| 1, st.2)
  else if p = "SHIFT".data then .ok (st.1 ||| 4, st.2)
  else if p = "WIN".data ∨ p = "WINDOWS".data ∨ p = "SUPER".data then
    .ok (st.1 ||| 8, st.2)
  else if st.2 ≠ 0 then .error (.multipleKeys (String.mk p))
  else
    match key_name_to_vk p with
    | .ok v => .ok (st.1, v)
    | .error e => .error e

/-- `parse_hotkey` from src/hotkey.rs: splits the input on plus signs, folds
the token loop starting from the no-repeat modifier bit 0x4000 and no key,
and rejects the result when no key token was seen. -/
def parse_hotkey (s : String) : Except HotkeyError (Nat × Nat) :=
  match (splitPlus s.data).foldlM parseStep (0x4000, 0) with
  | .error e => .error e
  | .ok st => if st.2 = 0 then .error .noKey else .ok st

/-- Decidable equality for `Except`, used to evaluate concrete runs of the
embedded fallible functions. -/
instance {ε α : Type} [DecidableEq ε] [DecidableEq α] : DecidableEq (Except ε α) := fun x y =>
  match x, y with
  | .ok a, .ok b =>
    if h : a = b then .isTrue (by rw [h]) else .isFalse (by simp [h])
  | .error a, .error b =>
    if h : a = b then .isTrue (by rw [h]) else .isFalse (by simp [h])
  | .ok _, .error _ => .isFalse (by simp)
  | .error _, .ok _ => .isFalse (by simp)

/-! ### Default-endpoint switch service (src/audio.rs) -/

/-- Environment describing the outcomes of the foreign calls made by
`set_default_device`: the class activation (`CoCreateInstance` on the policy
class), the interface negotiation (`QueryInterface` for the policy
interface), and the per-role `SetDefaultEndpoint` call.  `none` is success;
`some e` is failure with the numeric result code `e`. -/
structure PolicyEnv where
  activateResult : Option Nat
  negotiateResult : Option Nat
  roleResult : Nat → Option Nat

/-- Instrumented observable outcome of one `set_default_device` call:
the returned result (the source returns the raw result code of whichever
foreign call failed, with no further structure), whether the extended
policy interface was successfully negotiated, how many times it was
released, which roles the per-role call was invoked for (in order), and
which roles were successfully applied (and are never rolled back). -/
structure SwitchTrace where
  result : Except Nat Unit
  negotiated : Bool
  released : Nat
  rolesInvoked : List Nat
  applied : List Nat

/-- The per-role loop of `set_default_device`: roles are tried in the given
order; a failing call stops the loop immediately and its result code is
propagated; roles already applied stay applied. -/
def setRoles (rr : Nat → Option Nat) : List Nat → Except Nat Unit × List Nat × List Nat
  | [] => (.ok (), [], [])
  | r :: rs =>
    match rr r with
    | some e => (.error e, [r], [])
    | none =>
      let t := setRoles rr rs
      (t.1, r :: t.2.1, r :: t.2.2)

/-- `set_default_device` from src/audio.rs, instrumented.  Activation failure
and negotiation failure propagate immediately (nothing negotiated, nothing
released).  After a successful negotiation the three roles 0, 1, 2 are set in
order; a failing role call propagates its result code by an early return that
skips the release call, so the release (count 1) happens only on the path
where all three role calls succeeded — exactly as in the source, where the
release statement is placed after the loop and the loop body ends in an early
return on error. -/
def set_default_device (env : PolicyEnv) : SwitchTrace :=
  match env.activateResult with
  | some e => ⟨.error e, false, 0, [], []⟩
  | none =>
    match env.negotiateResult with
    | some e => ⟨.error e, false, 0, [], []⟩
    | none =>
      let t := setRoles env.roleResult [0, 1, 2]
      match t.1 with
      | .error e => ⟨.error e, true, 0, t.2.1, t.2.2⟩
      | .ok _ => ⟨.ok (), true, 1, t.2.1, t.2.2⟩

/-! ### Controller toggle logic (src/main.rs) -/

/-- The configuration record from src/config.rs: the two configured endpoint
ids and the hotkey string. -/
structure Config where
  speakers : String
  headphones : String
  hotkey : String
deriving DecidableEq, Repr

/-- `is_current_speakers` from src/main.rs: maps the result of the live
default-device query to whether the returned id equals the configured
speakers id, and defaults to `true` when the query fails. -/
def is_current_speakers (cfg : Config) (q : Except Nat String) : Bool :=
  match q with
  | .ok id => id = cfg.speakers
  | .error _ => true

/-- Observable outcome of one `toggle_device` call from src/main.rs:
`attempted` is the switch target handed to the switch service together with
the `switching_to_speakers` flag (or `none` when the live query failed and
nothing was attempted); `switchedTo` is the new default id when the switch
call succeeded; `indicator` is the argument of the tray-state update, issued
only on success; `sound` records whether the confirmation cue was played. -/
structure ToggleOutcome where
  attempted : Option (String × Bool)
  switchedTo : Option String
  indicator : Option Bool
  sound : Bool
deriving DecidableEq, Repr

/-- `toggle_device` from src/main.rs: queries the live default id; on query
failure it returns having done nothing.  Otherwise the target is headphones
(flag false) when the live id equals the configured speakers id and speakers
(flag true) in every other case; the switch service is then called (its
success is the `setOk` argument), and only on success are the tray indicator
updated to the flag and the confirmation cue played. -/
def toggle_device (cfg : Config) (q : Except Nat String) (setOk : Bool) : ToggleOutcome :=
  match q with
  | .error _ => ⟨none, none, none, false⟩
  | .ok current =>
    let td := if current = cfg.speakers then (cfg.headphones, false) else (cfg.speakers, true)
    if setOk then ⟨some td, some td.1, some td.2, true⟩
    else ⟨some td, none, none, false⟩

/-- The toggle branch of `run_cli` from src/main.rs: the CLI target is
headphones (flag false) when `is_current_speakers` holds and speakers
(flag true) otherwise. -/
def run_cli_toggle (cfg : Config) (q : Except Nat String) : String × Bool :=
  if is_current_speakers cfg q then (cfg.headphones, false) else (cfg.speakers, true)

/-- Ground-truth system state threaded through a run of toggle events: the
actual OS default endpoint id and the tray-displayed speakers flag.  With no
external change, the live query of a toggle returns exactly
`actualDefault`. -/
structure SysState where
  actualDefault : String
  displayed : Bool
deriving DecidableEq, Repr

/-- One toggle event applied to the ground-truth state, derived from
`toggle_device`: the event carries whether the live query succeeds (in which
case it returns the actual default — the no-external-change assumption) and
whether the switch call succeeds.  The new actual default and displayed flag
are taken from the outcome when present and kept otherwise. -/
def toggleStep (cfg : Config) (ev : Bool × Bool) (s : SysState) : SysState :=
  let out := toggle_device cfg (if ev.1 then .ok s.actualDefault else .error 1) ev.2
  ⟨out.switchedTo.getD s.actualDefault, out.indicator.getD s.displayed⟩

/-- A sequence of toggle events applied in order. -/
def runToggles (cfg : Config) (evs : List (Bool × Bool)) (s : SysState) : SysState :=
  evs.foldl (fun st e => toggleStep cfg e st) s

/-- Number of successful toggles in an event sequence: those whose live
query and switch call both succeed. -/
def succCount (evs : List (Bool × Bool)) : Nat :=
  (evs.filter fun e => e.1 && e.2).length

/-- Modelled from the spec, for the refinement comparison of claim C3 only:
the target the spec derives from the cached flag, namely the *other*
configured id relative to `currentOutputIsSpeakers`. -/
def specCachedToggleTarget (cachedIsSpeakers : Bool) (cfg : Config) : String :=
  if cachedIsSpeakers then cfg.headphones else cfg.speakers

/-- The indicator value displayed at controller start: main.rs resolves
`is_speakers` once via `is_current_speakers` on the loaded config and hands
it to the tray setup. -/
def startup_indicator (cfg : Config) (q : Except Nat String) : Bool :=
  is_current_speakers cfg q

/-- The indicator value displayed after a successful reconfiguration:
main.rs replaces the config wholesale, re-resolves the flag via
`is_current_speakers` on the new config — a fresh live default-device
query — and hands it to the tray-state update. -/
def reconfigure_indicator (newCfg : Config) (q : Except Nat String) : Bool :=
  is_current_speakers newCfg q

/-! ### Icon resource selector (src/tray.rs, `load_icon_from_ico`) -/

/-- One byte of the icon container, read by plain indexing as in the source
(the source indexes without bounds checks; out-of-range indices are modelled
as 0 and shown to be unreachable under the well-formedness precondition). -/
def icoByte (d : List Nat) (i : Nat) : Nat :=
  d.getD i 0

/-- The entry count: the little-endian 16-bit field at header bytes 4 and 5. -/
def entryCount (d : List Nat) : Nat :=
  icoByte d 4 + 256 * icoByte d 5

/-- The stored width byte of directory entry `i` (entries are 16 bytes long
and start at offset 6). -/
def entryW (d : List Nat) (i : Nat) : Nat :=
  icoByte d (6 + 16 * i)

/-- The little-endian 32-bit data size field of entry `i` (entry bytes
8–11). -/
def entrySize (d : List Nat) (i : Nat) : Nat :=
  icoByte d (6 + 16 * i + 8) + 256 * icoByte d (6 + 16 * i + 9) +
    65536 * icoByte d (6 + 16 * i + 10) + 16777216 * icoByte d (6 + 16 * i + 11)

/-- The little-endian 32-bit data offset field of entry `i` (entry bytes
12–15). -/
def entryOffset (d : List Nat) (i : Nat) : Nat :=
  icoByte d (6 + 16 * i + 12) + 256 * icoByte d (6 + 16 * i + 13) +
    65536 * icoByte d (6 + 16 * i + 14) + 16777216 * icoByte d (6 + 16 * i + 15)

/-- The width actually compared: a stored width byte of 0 is treated as 255,
exactly as the source does for the 256-pixel entry. -/
def actualW (w : Nat) : Nat :=
  if w = 0 then 255 else w

/-- The selection condition of the loop body, verbatim from the source:
exact target match, or (no exact match held yet and) a smaller width still at
least the target, or (no exact match held yet and) the best width so far
below the target and this width larger. -/
def selCond (target bw aw : Nat) : Bool :=
  (aw = target : Bool) ||
    ((bw ≠ target : Bool) && (aw < bw : Bool) && (target ≤ aw : Bool)) ||
    ((bw ≠ target : Bool) && (bw < target : Bool) && (bw < aw : Bool))

/-- One iteration of the selection loop over entry index `i`; the state is
`(best_offset, best_size, best_w)`. -/
def selectStep (d : List Nat) (target : Nat) (st : Nat × Nat × Nat) (i : Nat) :
    Nat × Nat × Nat :=
  let aw := actualW (entryW d i)
  if selCond target st.2.2 aw then (entryOffset d i, entrySize d i, aw) else st

/-- The full selection loop of `load_icon_from_ico` over all entries,
starting from the source's initial state: best offset 0, best size 0, best
width 255. -/
def selectBest (d : List Nat) (target : Nat) : Nat × Nat × Nat :=
  (List.range (entryCount d)).foldl (selectStep d target) (0, 0, 255)

/-- The byte slice handed to the platform icon decoder: the selected
entry's data region `[best_offset, best_offset + best_size)`. -/
def selectSlice (d : List Nat) (target : Nat) : List Nat :=
  ((d.drop (selectBest d target).1).take (selectBest d target).2.1)

/-- The byte-level behaviour of `load_icon_from_ico` from src/tray.rs: the
selection runs with the hard-coded tray target size 16 and the function
returns the winning data region. -/
def load_icon_from_ico (d : List Nat) : List Nat :=
  selectSlice d 16

/-- The well-formedness precondition on an icon container buffer: the header
and all directory entries lie within the buffer, and every entry's data
region lies within the buffer. -/
def wellFormedIco (d : List Nat) : Prop :=
  6 + 16 * entryCount d ≤ d.length ∧
    ∀ i, i < entryCount d → entryOffset d i + entrySize d i ≤ d.length

instance (d : List Nat) : Decidable (wellFormedIco d) := by
  unfold wellFormedIco
  exact instDecidableAnd

/-- A directory entry built as in a real container: stored width `w` (twice,
for width and height), colour and reserved bytes, plane and bit-count words,
then the data size and data offset, both below 256 in the samples used
here. -/
def mkEntry (w size off : Nat) : List Nat :=
  [w, w, 0, 0, 1, 0, 32, 0, size, 0, 0, 0, off, 0, 0, 0]

/-! ### Concrete environments and containers used by the theorems -/

/-- Environment where activation and negotiation succeed and the first
per-role call fails with result code 5. -/
def envRole0Fails : PolicyEnv :=
  ⟨none, none, fun r => if r = 0 then some 5 else none⟩

/-- Environment where every foreign call succeeds. -/
def envAllOk : PolicyEnv :=
  ⟨none, none, fun _ => none⟩

/-- Environment where role 1 fails with result code 5 after role 0
succeeded. -/
def envRole1Fails : PolicyEnv :=
  ⟨none, none, fun r => if r = 1 then some 5 else none⟩

/-- Environment where role 2 fails with result code 5 after roles 0 and 1
succeeded. -/
def envRole2Fails : PolicyEnv :=
  ⟨none, none, fun r => if r = 2 then some 5 else none⟩

/-- Example configuration with two distinct endpoint ids. -/
def cfgEx : Config :=
  ⟨"spk", "hp", "Ctrl+Alt+S"⟩

/-! ### Claim theorems -/

/-- Claim C1 (code bug).  Evaluation of the embedded `set_default_device` at
the failing input: when negotiation succeeds and the first per-role call
fails with result code 5, the function returns that error with the extended
handle negotiated but released zero times — the early return of the role
loop skips the release that the source places after the loop, leaking the
handle; only the all-roles-succeed path releases it exactly once. -/
theorem set_default_device_leaks_on_role_failure :
    (set_default_device envRole0Fails).negotiated = true ∧
      (set_default_device envRole0Fails).result = .error 5 ∧
      (set_default_device envRole0Fails).released = 0 ∧
      (set_default_device envAllOk).released = 1 := by
  refine ⟨rfl, rfl, rfl, rfl⟩

/-- Claim C2, counterexample.  The reported error does not name the failing
role: an environment where role 1 fails with code 5 and one where role 2
fails with code 5 produce the very same returned error, even though the
failing role differs (the role loops stop after different invocation
prefixes).  The source propagates only the raw result code of the failing
call. -/
theorem role_error_does_not_name_role :
    (set_default_device envRole1Fails).result = .error 5 ∧
      (set_default_device envRole2Fails).result = .error 5 ∧
      (set_default_device envRole1Fails).rolesInvoked = [0, 1] ∧
      (set_default_device envRole2Fails).rolesInvoked = [0, 1, 2] := by
  refine ⟨rfl, rfl, rfl, rfl⟩

/-- Claim C2, amended.  `set_default_device` tries the three roles in order
0, 1, 2 and stops at the first failure; the reported error is the raw result
code of the first failing role call (and carries no role identity); the
roles before it remain applied (no rollback); and when all three calls
succeed, each role is invoked exactly once, in order 0, 1, 2, and all three
are applied. -/
theorem set_default_device_role_order (rr : Nat → Option Nat) :
    (∀ k e, k < 3 → (∀ j, j < k → rr j = none) → rr k = some e →
        (set_default_device ⟨none, none, rr⟩).result = .error e ∧
          (set_default_device ⟨none, none, rr⟩).rolesInvoked = List.range (k + 1) ∧
          (set_default_device ⟨none, none, rr⟩).applied = List.range k) ∧
      ((∀ j, j < 3 → rr j = none) →
        (set_default_device ⟨none, none, rr⟩).result = .ok () ∧
          (set_default_device ⟨none, none, rr⟩).rolesInvoked = [0, 1, 2] ∧
          (set_default_device ⟨none, none, rr⟩).applied = [0, 1, 2]) := by
  constructor
  · intro k e hk hpre hfail
    interval_cases k
    · simp [set_default_device, setRoles, hfail]
      rfl
    · have h0 : rr 0 = none := hpre 0 (by omega)
      simp [set_default_device, setRoles, h0, hfail]
      constructor <;> rfl
    · have h0 : rr 0 = none := hpre 0 (by omega)
      have h1 : rr 1 = none := hpre 1 (by omega)
      simp [set_default_device, setRoles, h0, h1, hfail]
      constructor <;> rfl
  · intro h
    have h0 : rr 0 = none := h 0 (by omega)
    have h1 : rr 1 = none := h 1 (by omega)
    have h2 : rr 2 = none := h 2 (by omega)
    simp [set_default_device, setRoles, h0, h1, h2]

/-- Claim C2, witness: the amended theorem applied at the environment where
role 1 is the first failure, and at the environment where every role call
succeeds. -/
theorem set_default_device_role_order_witness :
    ((set_default_device envRole1Fails).result = .error 5 ∧
        (set_default_device envRole1Fails).rolesInvoked = List.range 2 ∧
        (set_default_device envRole1Fails).applied = List.range 1) ∧
      ((set_default_device envAllOk).result = .ok () ∧
        (set_default_device envAllOk).rolesInvoked = [0, 1, 2] ∧
        (set_default_device envAllOk).applied = [0, 1, 2]) :=
  ⟨(set_default_device_role_order (fun r => if r = 1 then some 5 else none)).1 1 5
      (by omega) (fun j hj => by interval_cases j; rfl) rfl,
    (set_default_device_role_order (fun _ => none)).2 (fun j _ => rfl)⟩

/-- Claim C3, counterexample.  A controller start with live default equal to
the speakers id resolves the cached flag to `true`; the spec target relative
to that cached flag is the headphones id; but a toggle at a moment where the
live default is the headphones id targets the speakers id — the code derives
the target from a fresh live query inside `toggle_device`, not from the
cached flag.  Moreover the flag is not resynchronized by live query *only*
at controller start and not updated *purely* by switch outcomes: a
successful reconfiguration at a moment where the live default is the
headphones id re-resolves the flag to `false` by a fresh live query, with no
switch attempt involved. -/
theorem toggle_target_ignores_cache :
    is_current_speakers cfgEx (.ok "spk") = true ∧
      specCachedToggleTarget true cfgEx = "hp" ∧
      (toggle_device cfgEx (.ok "hp") true).attempted = some ("spk", true) ∧
      ("spk" : String) ≠ "hp" ∧
      reconfigure_indicator cfgEx (.ok "hp") = false := by
  refine ⟨rfl, rfl, rfl, by decide, by decide⟩

/-- Claim C3, amended.  The flag is resynchronized by a live default-device
query at controller start and again on each successful reconfiguration
(both resolve a successful query to whether the live id equals the speakers
id and a failed query to `true`); a toggle changes the indicator only on a
successful switch — the update carries the switching-to-speakers flag, and a
failed query or a failed switch leaves the indicator untouched; and each
toggle transition determines its target from a fresh live default-device
query: the other configured id relative to whether the *live* id equals the
configured speakers id, not relative to the cached value. -/
theorem controller_resync_and_toggle_target (cfg : Config) (live : String) (e : Nat)
    (setOk : Bool) :
    (toggle_device cfg (.ok live) setOk).attempted =
        some (specCachedToggleTarget (live = cfg.speakers : Bool) cfg,
          !(live = cfg.speakers : Bool)) ∧
      (toggle_device cfg (.ok live) true).indicator =
        some (!(live = cfg.speakers : Bool)) ∧
      (toggle_device cfg (.ok live) false).indicator = none ∧
      (toggle_device cfg (.error e) setOk).indicator = none ∧
      startup_indicator cfg (.ok live) = decide (live = cfg.speakers) ∧
      startup_indicator cfg (.error e) = true ∧
      reconfigure_indicator cfg (.ok live) = decide (live = cfg.speakers) ∧
      reconfigure_indicator cfg (.error e) = true := by
  refine ⟨?_, ?_, ?_, ?_, rfl, rfl, rfl, rfl⟩ <;>
    by_cases h : live = cfg.speakers <;>
      simp [toggle_device, specCachedToggleTarget, h] <;> cases setOk <;> rfl

/-- A toggle whose live query or switch call fails leaves the ground-truth
state (and the displayed indicator) unchanged. -/
lemma toggleStep_of_fail (cfg : Config) (ev : Bool × Bool) (s : SysState)
    (h : ev.1 = false ∨ ev.2 = false) : toggleStep cfg ev s = s := by
  obtain ⟨a, b⟩ := ev
  obtain ⟨ad, disp⟩ := s
  rcases h with h | h <;> simp only at h <;> subst h
  · simp [toggleStep, toggle_device]
  · cases a
    · simp [toggleStep, toggle_device]
    · simp [toggleStep, toggle_device]

/-- A successful toggle from a state whose displayed flag agrees with the
ground truth flips the displayed flag and preserves that agreement. -/
lemma toggleStep_succ (cfg : Config) (s : SysState)
    (hne : cfg.speakers ≠ cfg.headphones)
    (hinv : s.displayed = decide (s.actualDefault = cfg.speakers)) :
    (toggleStep cfg (true, true) s).displayed = !s.displayed ∧
      (toggleStep cfg (true, true) s).displayed =
        decide ((toggleStep cfg (true, true) s).actualDefault = cfg.speakers) := by
  obtain ⟨ad, disp⟩ := s
  simp only at hinv
  by_cases h : ad = cfg.speakers
  · simp [toggleStep, toggle_device, h, Ne.symm hne] at hinv ⊢
    simp [hinv]
  · simp [toggleStep, toggle_device, h] at hinv ⊢
    simp [hinv]

/-- Over any sequence of toggle events, the displayed flag is flipped by
exactly the successful toggles (it alternates: its final value depends only
on the parity of their count), and its agreement with the ground truth is an
invariant of the run. -/
lemma runToggles_alternation (cfg : Config) (hne : cfg.speakers ≠ cfg.headphones) :
    ∀ (evs : List (Bool × Bool)) (s : SysState),
      s.displayed = decide (s.actualDefault = cfg.speakers) →
      (runToggles cfg evs s).displayed =
          (if succCount evs % 2 = 0 then s.displayed else !s.displayed) ∧
        (runToggles cfg evs s).displayed =
          decide ((runToggles cfg evs s).actualDefault = cfg.speakers) := by
  intro evs
  induction evs with
  | nil => intro s hinv; simpa [runToggles, succCount] using hinv
  | cons ev evs ih =>
    intro s hinv
    have hrun : runToggles cfg (ev :: evs) s = runToggles cfg evs (toggleStep cfg ev s) := rfl
    by_cases hev : ev.1 = true ∧ ev.2 = true
    · have hev' : ev = (true, true) := by
        obtain ⟨a, b⟩ := ev
        simp only at hev
        simp [hev.1, hev.2]
      subst hev'
      have hstep := toggleStep_succ cfg s hne hinv
      have ih' := ih (toggleStep cfg (true, true) s) hstep.2
      have hcount : succCount ((true, true) :: evs) = succCount evs + 1 := by
        simp [succCount, List.filter]
      rw [hrun, hcount]
      refine ⟨?_, ih'.2⟩
      rw [ih'.1, hstep.1]
      rcases Nat.mod_two_eq_zero_or_one (succCount evs) with hm | hm
      · have hm' : (succCount evs + 1) % 2 = 1 := by omega
        simp [hm, hm']
      · have hm' : (succCount evs + 1) % 2 = 0 := by omega
        simp [hm, hm']
    · have hfail : ev.1 = false ∨ ev.2 = false := by
        obtain ⟨a, b⟩ := ev
        simp only at hev ⊢
        cases a <;> cases b <;> simp_all
      have hstep := toggleStep_of_fail cfg ev s hfail
      have hcount : succCount (ev :: evs) = succCount evs := by
        obtain ⟨a, b⟩ := ev
        rcases hfail with h | h <;> simp only at h <;> subst h <;>
          simp [succCount, List.filter]
      rw [hrun, hstep, hcount]
      exact ih s hinv

/-- Two successful toggles in a row restore the ground-truth default,
provided it started as one of the two configured ids. -/
lemma toggleStep_twice (cfg : Config) (s : SysState) (hne : cfg.speakers ≠ cfg.headphones)
    (h : s.actualDefault = cfg.speakers ∨ s.actualDefault = cfg.headphones) :
    (toggleStep cfg (true, true) (toggleStep cfg (true, true) s)).actualDefault
      = s.actualDefault := by
  obtain ⟨ad, disp⟩ := s
  rcases h with h | h <;> simp only at h <;>
    simp [toggleStep, toggle_device, h, hne, Ne.symm hne]

/-- Claim C4, counterexample.  The alternation clause fails as stated on a
reachable Running state: when the startup live query fails, the controller
assumes speakers (`is_current_speakers` yields `true`) even though the
actual default may be the headphones id.  From the state (actual default =
headphones id, displayed = true), a fully successful toggle — live query
returning the headphones id, switch to speakers succeeding — hands the
indicator update the value `true` again: the default really switches to the
speakers id, yet the displayed flag does not alternate. -/
theorem failed_startup_breaks_alternation :
    is_current_speakers cfgEx (.error 1) = true ∧
      (toggleStep cfgEx (true, true) ⟨"hp", true⟩).actualDefault = "spk" ∧
      (toggleStep cfgEx (true, true) ⟨"hp", true⟩).displayed = true := by
  refine ⟨rfl, by decide, by decide⟩

/-- Claim C4, amended: the claim holds provided the Running state's
displayed flag agrees with the live default, as it does after a successful
startup resynchronization.  With two distinct configured ids, no external
change and that agreement, (i) a successful toggle followed by a second
successful toggle returns the default output to the configured id it had
before both toggles, (ii) over every sequence of toggle events the
displayed speakers flag strictly alternates with each successful toggle —
its final value is its initial value exactly when the number of successful
toggles is even — and (iii) each failed toggle (query failure or switch
failure) leaves the state, the indicator included, unchanged. -/
theorem toggle_round_trip_and_alternation (cfg : Config) (s : SysState)
    (hne : cfg.speakers ≠ cfg.headphones)
    (hinv : s.displayed = decide (s.actualDefault = cfg.speakers)) :
    ((s.actualDefault = cfg.speakers ∨ s.actualDefault = cfg.headphones) →
        (toggleStep cfg (true, true) (toggleStep cfg (true, true) s)).actualDefault
          = s.actualDefault) ∧
      (∀ evs, (runToggles cfg evs s).displayed =
        (if succCount evs % 2 = 0 then s.displayed else !s.displayed)) ∧
      (∀ ev, ev.1 = false ∨ ev.2 = false → toggleStep cfg ev s = s) :=
  ⟨fun h => toggleStep_twice cfg s hne h,
   fun evs => (runToggles_alternation cfg hne evs s hinv).1,
   fun ev h => toggleStep_of_fail cfg ev s h⟩

/-- Claim C4, witness: the theorem applied at a concrete configuration and
state — a double toggle from the speakers id returns to it, and a
three-event run with two successful toggles and one failed one ends with the
indicator back at its initial value. -/
theorem toggle_round_trip_witness :
    (toggleStep cfgEx (true, true) (toggleStep cfgEx (true, true) ⟨"spk", true⟩)).actualDefault
        = "spk" ∧
      (runToggles cfgEx [(true, true), (true, false), (true, true)] ⟨"spk", true⟩).displayed
        = true := by
  have h := toggle_round_trip_and_alternation cfgEx ⟨"spk", true⟩ (by decide) (by decide)
  refine ⟨h.1 (Or.inl rfl), ?_⟩
  have h2 := h.2.1 [(true, true), (true, false), (true, true)]
  simpa [succCount, List.filter] using h2

/-- Claim C5, counterexample.  The multiple-keys error does not carry the
first key: the inputs with first key S and with first key A produce the very
same error, carrying only the second token F1.  The unknown-key error does
not carry the token as written: the token Zz is uppercased before matching,
so the error carries ZZ, a different string. -/
theorem hotkey_error_payloads :
    parse_hotkey "Ctrl+S+F1" = .error (.multipleKeys "F1") ∧
      parse_hotkey "Ctrl+A+F1" = .error (.multipleKeys "F1") ∧
      parse_hotkey "Ctrl+Alt+Zz" = .error (.unknownKey "ZZ") ∧
      HotkeyError.unknownKey "ZZ" ≠ HotkeyError.unknownKey "Zz" := by
  refine ⟨by decide, by decide, by decide, by decide⟩

/-- Claim C5, amended.  `parse_hotkey` maps Ctrl+Alt+S to the bitmask
0x4003 = no-repeat (0x4000) + Ctrl (2) + Alt (1) — so the modifier set
proper is exactly Ctrl and Alt, with Shift (4) and Win (8) absent — with key
0x53, the code of S; the lowercase spelling parses identically; Ctrl+Alt
yields the no-key error; Ctrl+S+F1 yields the multiple-keys error carrying
(only) the second key token F1; and Ctrl+Alt+Zz yields the unknown-key
error carrying the uppercased token ZZ. -/
theorem parse_hotkey_examples :
    parse_hotkey "Ctrl+Alt+S" = .ok (0x4003, 0x53) ∧
      parse_hotkey "ctrl+alt+s" = .ok (0x4003, 0x53) ∧
      (0x4003 &&& 2 ≠ 0 ∧ 0x4003 &&& 1 ≠ 0 ∧ 0x4003 &&& 4 = 0 ∧ 0x4003 &&& 8 = 0) ∧
      parse_hotkey "Ctrl+Alt" = .error .noKey ∧
      parse_hotkey "Ctrl+S+F1" = .error (.multipleKeys "F1") ∧
      parse_hotkey "Ctrl+Alt+Zz" = .error (.unknownKey "ZZ") := by
  refine ⟨by decide, by decide, by decide, by decide, by decide, by decide⟩

/-- Container with a single 8-pixel entry, whose 10 data bytes (all 7) start
at offset 22: every stored width is below the tray target 16. -/
def icoOnly8 : List Nat :=
  [0, 0, 1, 0, 1, 0] ++ mkEntry 8 10 22 ++ List.replicate 10 7

/-- Container with five entries of stored widths 8, 16, 32, 48 and 0 (the
256-pixel entry), each with a 4-byte data region; the 256-pixel entry's
region is the four bytes 9 at offset 102. -/
def icoWide : List Nat :=
  [0, 0, 1, 0, 5, 0] ++ mkEntry 8 4 86 ++ mkEntry 16 4 90 ++ mkEntry 32 4 94 ++
    mkEntry 48 4 98 ++ mkEntry 0 4 102 ++
    [1, 1, 1, 1, 2, 2, 2, 2, 3, 3, 3, 3, 4, 4, 4, 4, 9, 9, 9, 9]

/-- Container with two entries: stored width 8 (data bytes 7 at offset 38)
and stored width 0, the 256-pixel entry (data bytes 9 at offset 42). -/
def ico8And256 : List Nat :=
  [0, 0, 1, 0, 2, 0] ++ mkEntry 8 4 38 ++ mkEntry 0 4 42 ++ [7, 7, 7, 7, 9, 9, 9, 9]

/-- Claim C6 (code bug).  Evaluation at the failing inputs: when no entry
reaches the target, the selector selects nothing at all — the best state
stays at its initialisation and the empty slice is returned — instead of the
largest entry.  With widths 8/16/32/48/256 and target 300 every compared
width is below 300 and the result is empty, not the 256 entry's data; with a
single width-8 entry and the tray target 16 the result is empty, not the 8
entry's data.  (The fallback-largest branch of the source requires a best
width below the target, which the 255 initialisation makes unreachable.) -/
theorem fallback_largest_never_selected :
    (∀ i, i < entryCount icoWide → actualW (entryW icoWide i) < 300) ∧
      selectBest icoWide 300 = (0, 0, 255) ∧
      selectSlice icoWide 300 = [] ∧
      (icoWide.drop (entryOffset icoWide 4)).take (entrySize icoWide 4) = [9, 9, 9, 9] ∧
      (∀ i, i < entryCount icoOnly8 → actualW (entryW icoOnly8 i) < 16) ∧
      load_icon_from_ico icoOnly8 = [] ∧
      (icoOnly8.drop (entryOffset icoOnly8 0)).take (entrySize icoOnly8 0) =
        List.replicate 10 7 := by
  refine ⟨by decide, by decide, by decide, by decide, by decide, by decide, by decide⟩

/-- Claim C7 (code bug).  Evaluation at the failing input: in a container
whose only entry at or above the target 16 is the 256-pixel entry (stored
width 0, compared as 255), the nearest-fit-above rule should make it win,
but the selector returns the empty slice: its initial best width 255
collides with the compared width 255, so the strictly-smaller test never
lets that entry in. -/
theorem nearest_fit_above_misses_256_entry :
    (∀ i, i < entryCount ico8And256 → (16 ≤ actualW (entryW ico8And256 i) ↔ i = 1)) ∧
      load_icon_from_ico ico8And256 = [] ∧
      (ico8And256.drop (entryOffset ico8And256 1)).take (entrySize ico8And256 1) =
        [9, 9, 9, 9] ∧
      ([] : List Nat) ≠ [9, 9, 9, 9] := by
  refine ⟨by decide, by decide, by decide, by decide⟩

/-- Claim C8: at startup the controller resolves the speakers flag by
comparing the live default id to the configured speakers id, and a failing
live query resolves to `true` (speakers assumed active) instead of failing. -/
theorem startup_speakers_resolution (cfg : Config) (id : String) (e : Nat) :
    is_current_speakers cfg (.ok id) = decide (id = cfg.speakers) ∧
      is_current_speakers cfg (.error e) = true :=
  ⟨rfl, rfl⟩

/-- Invariant of the selection loop: starting from a state that is the
initialisation or some entry's offset/size/width triple, the fold over any
list of in-range entry indices again yields the initialisation or some
entry's triple. -/
lemma selectFold_cases (d : List Nat) (t : Nat) :
    ∀ (l : List Nat) (st : Nat × Nat × Nat),
      (st = (0, 0, 255) ∨ ∃ i, i < entryCount d ∧
          st = (entryOffset d i, entrySize d i, actualW (entryW d i))) →
      (∀ i, i ∈ l → i < entryCount d) →
      (l.foldl (selectStep d t) st = (0, 0, 255) ∨ ∃ i, i < entryCount d ∧
          l.foldl (selectStep d t) st =
            (entryOffset d i, entrySize d i, actualW (entryW d i))) := by
  intro l
  induction l with
  | nil => intro st hst _; simpa using hst
  | cons j l ih =>
    intro st hst hl
    have hj : j < entryCount d := hl j (List.mem_cons_self j l)
    simp only [List.foldl_cons]
    apply ih
    · by_cases hc : selCond t st.2.2 (actualW (entryW d j)) = true
      · exact Or.inr ⟨j, hj, by simp [selectStep, hc]⟩
      · simpa [selectStep, hc] using hst
    · exact fun i hi => hl i (List.mem_cons_of_mem j hi)

/-- The selection result is the initial state or one of the entries' data
triples. -/
lemma selectBest_cases (d : List Nat) (t : Nat) :
    selectBest d t = (0, 0, 255) ∨ ∃ i, i < entryCount d ∧
      selectBest d t = (entryOffset d i, entrySize d i, actualW (entryW d i)) :=
  selectFold_cases d t (List.range (entryCount d)) (0, 0, 255) (Or.inl rfl)
    (fun _ hi => List.mem_range.mp hi)

/-- If no entry passes the selection condition against the initial best
width 255, the loop never moves from its initial state. -/
lemma selectFold_none (d : List Nat) (t : Nat) :
    ∀ l : List Nat,
      (∀ i, i ∈ l → selCond t 255 (actualW (entryW d i)) = false) →
      l.foldl (selectStep d t) (0, 0, 255) = (0, 0, 255) := by
  intro l
  induction l with
  | nil => intro _; rfl
  | cons j l ih =>
    intro h
    have hj := h j (List.mem_cons_self j l)
    simp only [List.foldl_cons]
    have hstep : selectStep d t (0, 0, 255) j = (0, 0, 255) := by
      simp [selectStep, hj]
    rw [hstep]
    exact ih fun i hi => h i (List.mem_cons_of_mem j hi)

/-- Claim C9: under the well-formedness precondition — the buffer holds the
header and all `count` directory entries, and every entry's data region lies
within the buffer — every index the selector reads is in bounds: the header
width field at bytes 4 and 5, all sixteen bytes of every directory entry,
and the winning data region, which is either some entry's region or the
empty region at offset 0; and when no entry is ever selected (no entry
passes the selection test against the initial best width) the returned
slice is the empty slice at offset 0 rather than an error. -/
theorem ico_reader_safety (d : List Nat) (h : wellFormedIco d) :
    5 < d.length ∧
      (∀ i k, i < entryCount d → k < 16 → 6 + 16 * i + k < d.length) ∧
      (selectBest d 16).1 + (selectBest d 16).2.1 ≤ d.length ∧
      ((∀ i, i < entryCount d → selCond 16 255 (actualW (entryW d i)) = false) →
        selectBest d 16 = (0, 0, 255) ∧ load_icon_from_ico d = []) := by
  obtain ⟨hlen, hentries⟩ := h
  refine ⟨by omega, ?_, ?_, ?_⟩
  · intro i k hi hk
    have h16 : 16 * (i + 1) ≤ 16 * entryCount d := Nat.mul_le_mul_left 16 hi
    omega
  · rcases selectBest_cases d 16 with hc | ⟨i, hi, hc⟩
    · rw [hc]
      simp
    · rw [hc]
      simpa using hentries i hi
  · intro hnone
    have hsel : selectBest d 16 = (0, 0, 255) :=
      selectFold_none d 16 (List.range (entryCount d))
        (fun i hi => hnone i (List.mem_range.mp hi))
    refine ⟨hsel, ?_⟩
    unfold load_icon_from_ico selectSlice
    rw [hsel]
    rfl

/-- Claim C9, witness: the theorem applied at the concrete well-formed
container whose only entry is below the target, exhibiting the
empty-slice-no-selection behaviour. -/
theorem ico_reader_safety_witness :
    selectBest icoOnly8 16 = (0, 0, 255) ∧ load_icon_from_ico icoOnly8 = [] :=
  (ico_reader_safety icoOnly8 (by decide)).2.2.2 (by decide)

/-- Claim C10: with a successful live query, any live id different from the
configured speakers id — a third, unconfigured id included — makes the
speakers endpoint the switch target of both the tray/hotkey toggle and the
CLI toggle, and an exact match with the speakers id is the only way
headphones become the target. -/
theorem toggle_prefers_speakers (cfg : Config) (id : String) :
    (id ≠ cfg.speakers →
        (toggle_device cfg (.ok id) true).attempted = some (cfg.speakers, true) ∧
          run_cli_toggle cfg (.ok id) = (cfg.speakers, true)) ∧
      (id = cfg.speakers →
        (toggle_device cfg (.ok id) true).attempted = some (cfg.headphones, false) ∧
          run_cli_toggle cfg (.ok id) = (cfg.headphones, false)) := by
  constructor
  · intro h
    exact ⟨by simp [toggle_device, h], by simp [run_cli_toggle, is_current_speakers, h]⟩
  · intro h
    exact ⟨by simp [toggle_device, h], by simp [run_cli_toggle, is_current_speakers, h]⟩

/-- Claim C10, witness: the theorem applied at a live id that matches
neither configured endpoint; the speakers endpoint is the target on both
paths. -/
theorem toggle_prefers_speakers_witness :
    (toggle_device cfgEx (.ok "third") true).attempted = some ("spk", true) ∧
      run_cli_toggle cfgEx (.ok "third") = ("spk", true) :=
  (toggle_prefers_speakers cfgEx "third").1 (by decide)

end AudioSwitcher
